import Mathlib

/-!
Shallow embedding of `prepare_bop_scene.py` (function
`setup_scene_files_and_targets`): the file-resolution stage, which copies
sensor-suffixed scene JSON files to their canonical names, and the
target-aggregation stage, which turns a ground-truth mapping
(image id string to list of per-object entries) into a flat list of
`(scene_id, im_id, obj_id, inst_count)` target records.

Modelling conventions:
* JSON values are the inductive `Json`; numerals are modelled as integers
  (floating-point numerals are outside the model).
* The scene directory is a function from file name to optional file
  content; file content is `Option Json`, where `none` stands for a file
  whose bytes `json.load` fails to parse.
* Python `int(...)` on a string is `parsePyInt` (ASCII whitespace, an
  optional sign, and digits with single interior underscores; non-ASCII
  digit forms are outside the model).
* `Counter` keys must be hashable in Python; incrementing at an
  unhashable key (a JSON array or object) raises `TypeError`, which the
  script does not catch.  Aggregation therefore returns `Option`, with
  `none` for that uncaught crash.
* I/O failure injected by the environment (copy failure, output write
  failure) and the missing-scene-directory check are outside the model:
  copies and the final write always succeed here.
-/

/-- JSON values as produced by `json.load`; numerals are modelled as
integers (floating-point numerals are outside the model). -/
inductive Json where
  | null : Json
  | bool : Bool → Json
  | num : Int → Json
  | str : String → Json
  | arr : List Json → Json
  | obj : List (String × Json) → Json

/-- One output target record, as built at lines 110-115 of the source. -/
structure TargetRecord where
  scene_id : Int
  im_id : Int
  obj_id : Json
  inst_count : Nat

/-- Decimal digit value of a character, if it is an ASCII digit. -/
def digitVal (c : Char) : Option Nat :=
  if '0' ≤ c ∧ c ≤ '9' then some (c.toNat - '0'.toNat) else none

/-- Digits after the first one, as accepted by Python `int`: single
underscores may separate digits but may not lead, trail or repeat. -/
def parseDigitsAux : List Char → Nat → Option Nat
  | [], acc => some acc
  | ['_'], _ => none
  | '_' :: c :: rest, acc =>
    match digitVal c with
    | some d => parseDigitsAux rest (acc * 10 + d)
    | none => none
  | c :: rest, acc =>
    match digitVal c with
    | some d => parseDigitsAux rest (acc * 10 + d)
    | none => none

/-- A nonempty run of digits (with optional interior underscores). -/
def parseDigits : List Char → Option Nat
  | [] => none
  | c :: rest =>
    match digitVal c with
    | some d => parseDigitsAux rest d
    | none => none

/-- ASCII whitespace stripped by Python `int` before parsing. -/
def isPySpace (c : Char) : Bool :=
  c = ' ' || c = '\t' || c = '\n' || c = '\r' || c = '\x0b' || c = '\x0c'

/-- Python `int(s)` for a string `s`: strip whitespace, optional sign,
then a nonempty digit run; `none` models a raised `ValueError`
(line 93 of the source, caught at line 94). -/
def parsePyInt (s : String) : Option Int :=
  let cs := ((s.data.dropWhile isPySpace).reverse.dropWhile isPySpace).reverse
  match cs with
  | '+' :: rest => (parseDigits rest).map (fun n => (n : Int))
  | '-' :: rest => (parseDigits rest).map (fun n => -(n : Int))
  | rest => (parseDigits rest).map (fun n => (n : Int))

/-- Lookup in a parsed JSON object, mirroring Python dict access on the
result of `json.load` (a duplicated key keeps its last value). -/
def dictGet (kvs : List (String × Json)) (k : String) : Option Json :=
  match kvs with
  | [] => none
  | (k2, v) :: rest =>
    match dictGet rest k with
    | some r => some r
    | none => if k2 = k then some v else none

/-- Python `==` on the hashable JSON scalars that can serve as `Counter`
keys; as in Python, `True == 1` and `False == 0`. -/
def pyEqScalar : Json → Json → Bool
  | Json.null, Json.null => true
  | Json.bool a, Json.bool b => a == b
  | Json.num a, Json.num b => a == b
  | Json.bool a, Json.num b => (if a then (1 : Int) else 0) == b
  | Json.num a, Json.bool b => a == (if b then (1 : Int) else 0)
  | Json.str a, Json.str b => a == b
  | _, _ => false

/-- Whether a JSON value is hashable in Python (arrays and objects load
as `list` and `dict`, which are unhashable). -/
def isHashable : Json → Bool
  | Json.arr _ => false
  | Json.obj _ => false
  | _ => true

/-- `Counter[k] += 1` on an insertion-ordered counter: bump the entry
whose key compares equal to `k`, else append `(k, 1)` at the end. -/
def incrCounter (cs : List (Json × Nat)) (k : Json) : List (Json × Nat) :=
  match cs with
  | [] => [(k, 1)]
  | (k2, n) :: rest =>
    if pyEqScalar k2 k then (k2, n + 1) :: rest
    else (k2, n) :: incrCounter rest k

/-- `Counter[k] += 1` including Python's hashability requirement:
`none` models the uncaught `TypeError` on an unhashable key. -/
def pyCounterAdd (cs : List (Json × Nat)) (k : Json) : Option (List (Json × Nat)) :=
  if isHashable k then some (incrCounter cs k) else none

/-- The per-image counting loop (lines 102-107): entries that are JSON
objects containing `"obj_id"` bump the counter at their `obj_id` value;
other entries only produce a diagnostic. -/
def countAnns (cs : List (Json × Nat)) : List Json → Option (List (Json × Nat))
  | [] => some cs
  | ann :: rest =>
    match ann with
    | Json.obj kvs =>
      match dictGet kvs "obj_id" with
      | some oid =>
        match pyCounterAdd cs oid with
        | some cs2 => countAnns cs2 rest
        | none => none
      | none => countAnns cs rest
    | _ => countAnns cs rest

/-- Whether an entry of an image's list is counted by the loop at lines
103-107: a JSON object containing the key `"obj_id"`. -/
def isValidAnn (ann : Json) : Bool :=
  match ann with
  | Json.obj kvs => (dictGet kvs "obj_id").isSome
  | _ => false

/-- Processing of one `(im_id_str, gt_annotations)` item of the
ground-truth mapping (lines 91-115): skip the item when the key is not
an integer or the value is not a list, otherwise count the entries and
emit one record per counter entry in insertion order. -/
def processImage (sid : Int) (kv : String × Json) : Option (List TargetRecord) :=
  match parsePyInt kv.1 with
  | none => some []
  | some im =>
    match kv.2 with
    | Json.arr anns =>
      (countAnns [] anns).map
        (List.map (fun oc => TargetRecord.mk sid im oc.1 oc.2))
    | _ => some []

/-- The full loop over the ground-truth mapping (lines 91-115), keeping
item order; `none` propagates the uncaught per-image `TypeError`. -/
def aggregate (sid : Int) : List (String × Json) → Option (List TargetRecord)
  | [] => some []
  | kv :: rest =>
    match processImage sid kv with
    | none => none
    | some ts =>
      match aggregate sid rest with
      | none => none
      | some rest2 => some (ts ++ rest2)

/-- Sum of the counts held in a counter. -/
def sumCounts : List (Json × Nat) → Nat
  | [] => 0
  | p :: rest => p.2 + sumCounts rest

/-- Sum of `inst_count` over a list of target records. -/
def sumInst : List TargetRecord → Nat
  | [] => 0
  | r :: rest => r.inst_count + sumInst rest

/-- Content of a file in the scene directory: `some j` when the bytes
parse as JSON value `j`, `none` when `json.load` raises. -/
def FileContent : Type := Option Json

/-- The scene directory, as a map from file name to content of the file
with that name (`none` when no such file exists). -/
def SceneDir : Type := String → Option FileContent

/-- Writing a file (the effect of `shutil.copy2` with this destination
name): the destination gets the source's content. -/
def setFile (fs : SceneDir) (name : String) (c : FileContent) : SceneDir :=
  fun n => if n = name then some c else fs n

/-- State touched by the script: the scene directory and the output
targets file (its parsed content, `none` when absent). -/
structure FState where
  scene : SceneDir
  output : Option (List TargetRecord)

/-- How a run ends: `missingGT` is the return at line 51 (mandatory
ground truth absent), `gtUnavailable` the return at line 73,
`loadError` the return at line 84, `notDict` the return at line 89,
`crashed` an uncaught `TypeError` inside the counting loop, and `ok` a
run that writes the targets file. -/
inductive Outcome where
  | missingGT : Outcome
  | gtUnavailable : Outcome
  | loadError : Outcome
  | notDict : Outcome
  | crashed : Outcome
  | ok : Outcome
deriving DecidableEq

/-- One iteration of the resolution loop (lines 34-66) for artifact
`key` with canonical name `std`: pick the suffixed source name when a
suffix is given, abort (`Except.error`) when the mandatory ground truth
is absent from both names, copy when source and destination differ.
The returned `Bool` is `gt_file_successfully_prepared`. -/
def processKind (suffix key std : String) (fs : SceneDir) (gtPrep : Bool) :
    Except SceneDir (SceneDir × Bool) :=
  let src := if suffix = "" then std else "scene_" ++ key ++ "_" ++ suffix ++ ".json"
  match fs src with
  | none =>
    if key = "gt" then
      match fs std with
      | none => Except.error fs
      | some _ => Except.ok (fs, gtPrep)
    else Except.ok (fs, gtPrep)
  | some c =>
    if src = std then
      Except.ok (fs, if key = "gt" then true else gtPrep)
    else
      Except.ok (setFile fs std c, if key = "gt" then true else gtPrep)

/-- The resolution stage: the loop of lines 34-66 over the three
artifact kinds, in the iteration order of the source dict literal.
An `Except.error` carries the scene directory at the abort. -/
def resolve (suffix : String) (fs : SceneDir) : Except SceneDir (SceneDir × Bool) :=
  match processKind suffix "camera" "scene_camera.json" fs false with
  | Except.error e => Except.error e
  | Except.ok (fs1, g1) =>
    match processKind suffix "gt" "scene_gt.json" fs1 g1 with
    | Except.error e => Except.error e
    | Except.ok (fs2, g2) =>
      processKind suffix "gt_info" "scene_gt_info.json" fs2 g2

/-- The aggregation stage (lines 79-130) applied to the content of the
canonical ground-truth file: `loadError` when the bytes do not parse,
`notDict` when the parsed value is not a mapping, `crashed` on an
uncaught counting `TypeError`; only an `ok` run replaces the output
targets file (an empty record list is still written, line 117-126). -/
def aggregationStage (sid : Int) (c : FileContent) (prev : Option (List TargetRecord)) :
    Outcome × Option (List TargetRecord) :=
  match c with
  | none => (Outcome.loadError, prev)
  | some j =>
    match j with
    | Json.obj kvs =>
      match aggregate sid kvs with
      | some ts => (Outcome.ok, some ts)
      | none => (Outcome.crashed, prev)
    | _ => (Outcome.notDict, prev)

/-- The whole of `setup_scene_files_and_targets` after the
scene-directory existence check: resolution (lines 34-73), then the
check at lines 69-73, then aggregation and the output write. -/
def setup_scene_files_and_targets (sid : Int) (suffix : String) (st : FState) :
    Outcome × FState :=
  match resolve suffix st.scene with
  | Except.error fs => (Outcome.missingGT, { st with scene := fs })
  | Except.ok (fs, g) =>
    match fs "scene_gt.json" with
    | none =>
      if g then (Outcome.loadError, { st with scene := fs })
      else (Outcome.gtUnavailable, { st with scene := fs })
    | some c =>
      let r := aggregationStage sid c st.output
      (r.1, { scene := fs, output := r.2 })
theorem gtSrc_ne_gtStd (suffix : String) :
    "scene_gt_" ++ suffix ++ ".json" ≠ "scene_gt.json" := by
  intro h
  have h9 := congrArg (fun s => s.data.take 9) h
  exact
    (by decide : ¬ (['s','c','e','n','e','_','g','t','_'] : List Char) =
      ['s','c','e','n','e','_','g','t','.']) h9

theorem gtSrc_ne_camera (suffix : String) :
    "scene_gt_" ++ suffix ++ ".json" ≠ "scene_camera.json" := by
  intro h
  have h7 := congrArg (fun s => s.data.take 7) h
  exact
    (by decide : ¬ (['s','c','e','n','e','_','g'] : List Char) =
      ['s','c','e','n','e','_','c']) h7

theorem processKind_nongt (suffix key std : String) (hk : ¬ key = "gt")
    (fs : SceneDir) (g : Bool) :
    ∃ fs2, processKind suffix key std fs g = Except.ok (fs2, g) ∧
      ∀ n, ¬ n = std → fs2 n = fs n := by
  simp only [processKind]
  cases h : fs (if suffix = "" then std else "scene_" ++ key ++ "_" ++ suffix ++ ".json") with
  | none =>
    refine ⟨fs, ?_, fun n _ => rfl⟩
    simp [hk]
  | some c =>
    by_cases hsd : (if suffix = "" then std else "scene_" ++ key ++ "_" ++ suffix ++ ".json") = std
    · refine ⟨fs, ?_, fun n _ => rfl⟩
      simp [hsd, hk]
    · refine ⟨setFile fs std c, ?_, fun n hn => ?_⟩
      · simp [hsd, hk]
      · simp [setFile, hn]

theorem processKind_nosuffix_present (key std : String) (fs : SceneDir) (g : Bool)
    (c : FileContent) (h : fs std = some c) :
    processKind "" key std fs g = Except.ok (fs, if key = "gt" then true else g) := by
  simp [processKind, h]

theorem processKind_gt_suffix_absent_none (suffix : String) (hs : ¬ suffix = "")
    (fs : SceneDir) (g : Bool)
    (h1 : fs ("scene_gt_" ++ suffix ++ ".json") = none)
    (h2 : fs "scene_gt.json" = none) :
    processKind suffix "gt" "scene_gt.json" fs g = Except.error fs := by
  simp [processKind, hs, h1, h2]

theorem processKind_gt_suffix_absent_canonical (suffix : String) (hs : ¬ suffix = "")
    (fs : SceneDir) (g : Bool) (c : FileContent)
    (h1 : fs ("scene_gt_" ++ suffix ++ ".json") = none)
    (h2 : fs "scene_gt.json" = some c) :
    processKind suffix "gt" "scene_gt.json" fs g = Except.ok (fs, g) := by
  simp [processKind, hs, h1, h2]

theorem processKind_gt_suffix_present (suffix : String) (hs : ¬ suffix = "")
    (fs : SceneDir) (g : Bool) (c : FileContent)
    (h1 : fs ("scene_gt_" ++ suffix ++ ".json") = some c) :
    processKind suffix "gt" "scene_gt.json" fs g =
      Except.ok (setFile fs "scene_gt.json" c, true) := by
  simp [processKind, hs, h1, gtSrc_ne_gtStd suffix]

/-- Whether a JSON value is an object (a Python dict after `json.load`). -/
def Json.isObj : Json → Bool
  | Json.obj _ => true
  | _ => false

theorem aggregationStage_notDict (sid : Int) (j : Json)
    (prev : Option (List TargetRecord)) (hj : j.isObj = false) :
    aggregationStage sid (some j) prev = (Outcome.notDict, prev) := by
  cases j <;> simp_all [aggregationStage, Json.isObj]

theorem aggregationStage_fst_cases (sid : Int) (c : FileContent)
    (prev : Option (List TargetRecord)) :
    (aggregationStage sid c prev).1 = Outcome.loadError ∨
    (aggregationStage sid c prev).1 = Outcome.notDict ∨
    (aggregationStage sid c prev).1 = Outcome.crashed ∨
    (aggregationStage sid c prev).1 = Outcome.ok := by
  unfold aggregationStage
  rcases c with _ | (_ | b | n | s | l | kvs)
  · exact Or.inl rfl
  · exact Or.inr (Or.inl rfl)
  · exact Or.inr (Or.inl rfl)
  · exact Or.inr (Or.inl rfl)
  · exact Or.inr (Or.inl rfl)
  · exact Or.inr (Or.inl rfl)
  · cases h : aggregate sid kvs with
    | none => refine Or.inr (Or.inr (Or.inl ?_)); simp [h]
    | some ts => refine Or.inr (Or.inr (Or.inr ?_)); simp [h]

theorem setup_of_resolve (sid : Int) (suffix : String) (st : FState)
    (fs : SceneDir) (g : Bool) (c : FileContent)
    (hr : resolve suffix st.scene = Except.ok (fs, g))
    (hgt : fs "scene_gt.json" = some c) :
    setup_scene_files_and_targets sid suffix st =
      ((aggregationStage sid c st.output).1,
        { scene := fs, output := (aggregationStage sid c st.output).2 }) := by
  simp [setup_scene_files_and_targets, hr, hgt]

theorem setup_of_resolve_error (sid : Int) (suffix : String) (st : FState)
    (fs : SceneDir) (hr : resolve suffix st.scene = Except.error fs) :
    setup_scene_files_and_targets sid suffix st =
      (Outcome.missingGT, { st with scene := fs }) := by
  simp [setup_scene_files_and_targets, hr]
/-- C4: with a non-empty sensor suffix, when the suffixed ground-truth
source is absent and no canonical scene_gt.json pre-exists, the run
aborts during resolution (the line-51 return) and the output targets
file is neither written nor modified. -/
theorem c4_missing_mandatory_source_aborts (sid : Int) (suffix : String) (st : FState)
    (hs : suffix ≠ "")
    (h1 : st.scene ("scene_gt_" ++ suffix ++ ".json") = none)
    (h2 : st.scene "scene_gt.json" = none) :
    (setup_scene_files_and_targets sid suffix st).1 = Outcome.missingGT ∧
    (setup_scene_files_and_targets sid suffix st).2.output = st.output := by
  obtain ⟨fs1, hc, hcp⟩ :=
    processKind_nongt suffix "camera" "scene_camera.json" (by decide) st.scene false
  have e1 : fs1 ("scene_gt_" ++ suffix ++ ".json") = none := by
    rw [hcp _ (gtSrc_ne_camera suffix)]; exact h1
  have e2 : fs1 "scene_gt.json" = none := by
    rw [hcp _ (by decide)]; exact h2
  have hr : resolve suffix st.scene = Except.error fs1 := by
    simp [resolve, hc, processKind_gt_suffix_absent_none suffix hs fs1 false e1 e2]
  rw [setup_of_resolve_error sid suffix st fs1 hr]
  exact ⟨rfl, rfl⟩

/-- C5: with a non-empty sensor suffix, when the suffixed ground-truth
source is absent but a canonical scene_gt.json already exists,
resolution does not abort and aggregation runs on the pre-existing
canonical file's content. -/
theorem c5_stale_canonical_satisfies_check (sid : Int) (suffix : String) (st : FState)
    (c : FileContent) (hs : suffix ≠ "")
    (h1 : st.scene ("scene_gt_" ++ suffix ++ ".json") = none)
    (h2 : st.scene "scene_gt.json" = some c) :
    (setup_scene_files_and_targets sid suffix st).1 ≠ Outcome.missingGT ∧
    (setup_scene_files_and_targets sid suffix st).1 ≠ Outcome.gtUnavailable ∧
    (setup_scene_files_and_targets sid suffix st).1 = (aggregationStage sid c st.output).1 ∧
    (setup_scene_files_and_targets sid suffix st).2.output = (aggregationStage sid c st.output).2 := by
  obtain ⟨fs1, hc, hcp⟩ :=
    processKind_nongt suffix "camera" "scene_camera.json" (by decide) st.scene false
  have e1 : fs1 ("scene_gt_" ++ suffix ++ ".json") = none := by
    rw [hcp _ (gtSrc_ne_camera suffix)]; exact h1
  have e2 : fs1 "scene_gt.json" = some c := by
    rw [hcp _ (by decide)]; exact h2
  obtain ⟨fs3, hi, hip⟩ :=
    processKind_nongt suffix "gt_info" "scene_gt_info.json" (by decide) fs1 false
  have hr : resolve suffix st.scene = Except.ok (fs3, false) := by
    simp [resolve, hc, processKind_gt_suffix_absent_canonical suffix hs fs1 false c e1 e2, hi]
  have e3 : fs3 "scene_gt.json" = some c := by
    rw [hip _ (by decide)]; exact e2
  rw [setup_of_resolve sid suffix st fs3 false c hr e3]
  refine ⟨?_, ?_, rfl, rfl⟩ <;>
    rcases aggregationStage_fst_cases sid c st.output with h | h | h | h <;>
      rw [h] <;> decide

/-- C8: with an empty sensor suffix and all three canonical files
present, resolution copies nothing (the scene directory is left exactly
as it was, so every file keeps its bytes) and does not abort. -/
theorem c8_no_copy_when_canonical (sid : Int) (st : FState) (cc cg ci : FileContent)
    (hc : st.scene "scene_camera.json" = some cc)
    (hg : st.scene "scene_gt.json" = some cg)
    (hi : st.scene "scene_gt_info.json" = some ci) :
    (setup_scene_files_and_targets sid "" st).2.scene = st.scene ∧
    (setup_scene_files_and_targets sid "" st).1 ≠ Outcome.missingGT ∧
    (setup_scene_files_and_targets sid "" st).1 ≠ Outcome.gtUnavailable := by
  have s1 := processKind_nosuffix_present "camera" "scene_camera.json" st.scene false cc hc
  have s2 := processKind_nosuffix_present "gt" "scene_gt.json" st.scene false cg hg
  have s3 := processKind_nosuffix_present "gt_info" "scene_gt_info.json" st.scene true ci hi
  have hr : resolve "" st.scene = Except.ok (st.scene, true) := by
    simp [resolve, s1, s2, s3]
  rw [setup_of_resolve sid "" st st.scene true cg hr hg]
  refine ⟨rfl, ?_, ?_⟩ <;>
    rcases aggregationStage_fst_cases sid cg st.output with h | h | h | h <;>
      rw [h] <;> decide

/-- C6: when the canonical ground-truth file parses to a JSON value
that is not a mapping, the run ends at the line-89 return: no output
targets file is written. -/
theorem c6_top_level_not_mapping_aborts (sid : Int) (st : FState) (j : Json)
    (hj : j.isObj = false)
    (hgt : st.scene "scene_gt.json" = some (some j)) :
    (setup_scene_files_and_targets sid "" st).1 = Outcome.notDict ∧
    (setup_scene_files_and_targets sid "" st).2.output = st.output := by
  obtain ⟨fs1, hc, hcp⟩ :=
    processKind_nongt "" "camera" "scene_camera.json" (by decide) st.scene false
  have e1 : fs1 "scene_gt.json" = some (some j) := by
    rw [hcp _ (by decide)]; exact hgt
  have s2 := processKind_nosuffix_present "gt" "scene_gt.json" fs1 false (some j) e1
  obtain ⟨fs3, hi, hip⟩ :=
    processKind_nongt "" "gt_info" "scene_gt_info.json" (by decide) fs1 true
  have hr : resolve "" st.scene = Except.ok (fs3, true) := by
    simp [resolve, hc, s2, hi]
  have e3 : fs3 "scene_gt.json" = some (some j) := by
    rw [hip _ (by decide)]; exact e1
  rw [setup_of_resolve sid "" st fs3 true (some j) hr e3,
    aggregationStage_notDict sid j st.output hj]
  exact ⟨rfl, rfl⟩

/-- C9: with a non-empty sensor suffix and the suffixed ground-truth
source present with content c, resolution leaves exactly c at the
canonical name and the run's outcome and output are those of
aggregating c directly. -/
theorem c9_resolution_roundtrip (sid : Int) (suffix : String) (st : FState)
    (c : FileContent) (hs : suffix ≠ "")
    (h1 : st.scene ("scene_gt_" ++ suffix ++ ".json") = some c) :
    (setup_scene_files_and_targets sid suffix st).2.scene "scene_gt.json" = some c ∧
    (setup_scene_files_and_targets sid suffix st).1 = (aggregationStage sid c st.output).1 ∧
    (setup_scene_files_and_targets sid suffix st).2.output = (aggregationStage sid c st.output).2 := by
  obtain ⟨fs1, hc, hcp⟩ :=
    processKind_nongt suffix "camera" "scene_camera.json" (by decide) st.scene false
  have e1 : fs1 ("scene_gt_" ++ suffix ++ ".json") = some c := by
    rw [hcp _ (gtSrc_ne_camera suffix)]; exact h1
  have hgt := processKind_gt_suffix_present suffix hs fs1 false c e1
  obtain ⟨fs3, hi, hip⟩ :=
    processKind_nongt suffix "gt_info" "scene_gt_info.json" (by decide)
      (setFile fs1 "scene_gt.json" c) true
  have hr : resolve suffix st.scene = Except.ok (fs3, true) := by
    simp [resolve, hc, hgt, hi]
  have e3 : fs3 "scene_gt.json" = some c := by
    rw [hip _ (by decide)]
    simp [setFile]
  rw [setup_of_resolve sid suffix st fs3 true c hr e3]
  exact ⟨e3, rfl, rfl⟩
theorem sumCounts_incrCounter (cs : List (Json × Nat)) (k : Json) :
    sumCounts (incrCounter cs k) = sumCounts cs + 1 := by
  induction cs with
  | nil => rfl
  | cons p rest ih =>
    obtain ⟨k2, n⟩ := p
    by_cases h : pyEqScalar k2 k = true
    · simp [incrCounter, h, sumCounts]
      omega
    · simp [incrCounter, h, sumCounts, ih]
      omega

theorem incrCounter_pos (k : Json) (cs : List (Json × Nat)) :
    (∀ p ∈ cs, 1 ≤ p.2) → ∀ p ∈ incrCounter cs k, 1 ≤ p.2 := by
  induction cs with
  | nil =>
    intro _ p hp
    simp [incrCounter] at hp
    simp [hp]
  | cons q rest ih =>
    obtain ⟨k2, n⟩ := q
    intro h p hp
    by_cases he : pyEqScalar k2 k = true
    · simp [incrCounter, he] at hp
      rcases hp with hp | hp
      · simp [hp]
      · exact h p (List.mem_cons_of_mem _ hp)
    · simp [incrCounter, he] at hp
      rcases hp with hp | hp
      · rw [hp]
        exact h (k2, n) (List.mem_cons_self _ _)
      · exact ih (fun r hr => h r (List.mem_cons_of_mem _ hr)) p hp

theorem countAnns_sum (anns : List Json) : ∀ cs cs2 : List (Json × Nat),
    countAnns cs anns = some cs2 →
    sumCounts cs2 = sumCounts cs + (anns.filter isValidAnn).length := by
  induction anns with
  | nil =>
    intro cs cs2 h
    cases h
    simp [List.filter]
  | cons ann rest ih =>
    intro cs cs2 h
    rcases ann with _ | b | n | s | l | kvs
    · simpa [List.filter_cons, isValidAnn] using ih cs cs2 h
    · simpa [List.filter_cons, isValidAnn] using ih cs cs2 h
    · simpa [List.filter_cons, isValidAnn] using ih cs cs2 h
    · simpa [List.filter_cons, isValidAnn] using ih cs cs2 h
    · simpa [List.filter_cons, isValidAnn] using ih cs cs2 h
    · rcases hd : dictGet kvs "obj_id" with _ | oid
      · have h2 : countAnns cs rest = some cs2 := by
          simpa [countAnns, hd] using h
        simpa [List.filter_cons, isValidAnn, hd] using ih cs cs2 h2
      · by_cases hh : isHashable oid = true
        · have hadd : pyCounterAdd cs oid = some (incrCounter cs oid) := by
            simp [pyCounterAdd, hh]
          have h2 : countAnns (incrCounter cs oid) rest = some cs2 := by
            simpa [countAnns, hd, hadd] using h
          have hrec := ih (incrCounter cs oid) cs2 h2
          rw [hrec, sumCounts_incrCounter]
          simp [List.filter_cons, isValidAnn, hd]
          omega
        · have hadd : pyCounterAdd cs oid = none := by
            simp [pyCounterAdd, hh]
          simp [countAnns, hd, hadd] at h

theorem countAnns_pos (anns : List Json) : ∀ cs cs2 : List (Json × Nat),
    (∀ p ∈ cs, 1 ≤ p.2) → countAnns cs anns = some cs2 → ∀ p ∈ cs2, 1 ≤ p.2 := by
  induction anns with
  | nil =>
    intro cs cs2 hcs h
    cases h
    exact hcs
  | cons ann rest ih =>
    intro cs cs2 hcs h
    rcases ann with _ | b | n | s | l | kvs
    · exact ih cs cs2 hcs h
    · exact ih cs cs2 hcs h
    · exact ih cs cs2 hcs h
    · exact ih cs cs2 hcs h
    · exact ih cs cs2 hcs h
    · rcases hd : dictGet kvs "obj_id" with _ | oid
      · have h2 : countAnns cs rest = some cs2 := by
          simpa [countAnns, hd] using h
        exact ih cs cs2 hcs h2
      · by_cases hh : isHashable oid = true
        · have hadd : pyCounterAdd cs oid = some (incrCounter cs oid) := by
            simp [pyCounterAdd, hh]
          have h2 : countAnns (incrCounter cs oid) rest = some cs2 := by
            simpa [countAnns, hd, hadd] using h
          exact ih (incrCounter cs oid) cs2 (incrCounter_pos oid cs hcs) h2
        · have hadd : pyCounterAdd cs oid = none := by
            simp [pyCounterAdd, hh]
          simp [countAnns, hd, hadd] at h

theorem sumInst_mapRecords (sid im : Int) (cs : List (Json × Nat)) :
    sumInst (cs.map (fun oc => TargetRecord.mk sid im oc.1 oc.2)) = sumCounts cs := by
  induction cs with
  | nil => rfl
  | cons p rest ih => simp [sumInst, sumCounts, ih]

theorem processImage_pos (sid : Int) (kv : String × Json) (ts : List TargetRecord)
    (h : processImage sid kv = some ts) : ∀ r ∈ ts, 1 ≤ r.inst_count := by
  obtain ⟨k, v⟩ := kv
  simp only [processImage] at h
  cases hk : parsePyInt k with
  | none =>
    rw [hk] at h
    cases h
    intro r hr
    cases hr
  | some im =>
    rw [hk] at h
    rcases v with _ | b | n | s | anns | kvs
    case arr =>
      replace h : Option.map
          (List.map fun oc => TargetRecord.mk sid im oc.1 oc.2)
          (countAnns [] anns) = some ts := h
      cases hcnt : countAnns [] anns with
      | none => rw [hcnt] at h; cases h
      | some cs2 =>
        rw [hcnt] at h
        have hts := Option.some.inj h
        intro r hr
        rw [← hts] at hr
        rcases List.mem_map.mp hr with ⟨p, hp, hpr⟩
        have hpos := countAnns_pos anns [] cs2 (by intro q hq; cases hq) hcnt p hp
        rw [← hpr]
        exact hpos
    all_goals replace h : some ([] : List TargetRecord) = some ts := h
    all_goals cases h
    all_goals simp
/-- C1: for the ground-truth mapping with image "0" holding obj_id 5,
5, 7 and image "1" holding nothing, aggregation at scene_id 4 yields
exactly the records (4,0,5,2) and (4,0,7,1) in that order, and the
entry with key "1" contributes no record. -/
theorem c1_concrete_aggregation :
    aggregate 4
        [("0", Json.arr [Json.obj [("obj_id", Json.num 5)],
                         Json.obj [("obj_id", Json.num 5)],
                         Json.obj [("obj_id", Json.num 7)]]),
         ("1", Json.arr [])] =
      some [TargetRecord.mk 4 0 (Json.num 5) 2, TargetRecord.mk 4 0 (Json.num 7) 1] ∧
    processImage 4 ("1", Json.arr []) = some [] :=
  ⟨rfl, rfl⟩

/-- C2: for an image entry whose key parses as an integer and whose
value is a list, when processing completes, the emitted records'
inst_count values sum to the number of entries that are objects
containing "obj_id". -/
theorem c2_inst_count_sums_to_valid (sid i : Int) (k : String) (anns : List Json)
    (ts : List TargetRecord)
    (hk : parsePyInt k = some i)
    (hp : processImage sid (k, Json.arr anns) = some ts) :
    sumInst ts = (anns.filter isValidAnn).length := by
  simp only [processImage] at hp
  rw [hk] at hp
  replace hp : Option.map
      (List.map fun oc => TargetRecord.mk sid i oc.1 oc.2)
      (countAnns [] anns) = some ts := hp
  cases hcnt : countAnns [] anns with
  | none => rw [hcnt] at hp; cases hp
  | some cs2 =>
    rw [hcnt] at hp
    have hts := Option.some.inj hp
    rw [← hts, sumInst_mapRecords]
    have := countAnns_sum anns [] cs2 hcnt
    simpa [sumCounts] using this

/-- C3: every record of a completed aggregation has inst_count at least
one, so a pair observed zero times never yields a record. -/
theorem c3_inst_count_positive (sid : Int) (gt : List (String × Json))
    (ts : List TargetRecord) (h : aggregate sid gt = some ts) :
    ∀ r ∈ ts, 1 ≤ r.inst_count := by
  induction gt generalizing ts with
  | nil =>
    replace h : some ([] : List TargetRecord) = some ts := h
    cases h
    simp
  | cons kv rest ih =>
    simp only [aggregate] at h
    cases hp : processImage sid kv with
    | none => rw [hp] at h; cases h
    | some t1 =>
      rw [hp] at h
      cases ha : aggregate sid rest with
      | none => rw [ha] at h; cases h
      | some t2 =>
        rw [ha] at h
        have hts := Option.some.inj h
        intro r hr
        rw [← hts] at hr
        rcases List.mem_append.mp hr with hr | hr
        · exact processImage_pos sid kv t1 hp r hr
        · exact ih t2 ha r hr

/-- C7: an image entry whose key is not an integer contributes no
records, and removing it leaves the aggregation of every other entry
unchanged (the run is not aborted). -/
theorem c7_bad_key_skipped (sid : Int) (k : String) (v : Json)
    (before after : List (String × Json)) (hk : parsePyInt k = none) :
    processImage sid (k, v) = some [] ∧
    aggregate sid (before ++ (k, v) :: after) = aggregate sid (before ++ after) := by
  have hpi : processImage sid (k, v) = some [] := by
    simp only [processImage]
    rw [hk]
  refine ⟨hpi, ?_⟩
  induction before with
  | nil =>
    simp only [List.nil_append, aggregate, hpi]
    cases ha : aggregate sid after <;> simp
  | cons b rest ih =>
    have ih2 : aggregate sid (rest.append ((k, v) :: after)) =
        aggregate sid (rest.append after) := ih
    simp only [List.cons_append, aggregate]
    rw [ih2]

/-- C10: the image-key coercion is Python's int(), which accepts signed
numerals: the mapping with key "-3" is not skipped and yields a record
with the negative im_id -3. -/
theorem c10_negative_key_accepted :
    parsePyInt "-3" = some (-3) ∧
    aggregate 0 [("-3", Json.arr [Json.obj [("obj_id", Json.num 1)]])] =
      some [TargetRecord.mk 0 (-3) (Json.num 1) 1] :=
  ⟨rfl, rfl⟩
/-- A scene directory with no files, for concrete instantiations. -/
def sceneEmpty : SceneDir := fun _ => none

/-- A concrete parsed ground-truth content for concrete instantiations. -/
def gtContentW : FileContent :=
  some (Json.obj [("0", Json.arr [Json.obj [("obj_id", Json.num 3)]])])

/-- A scene directory holding only a canonical ground-truth file. -/
def sceneCanonical : SceneDir :=
  fun n => if n = "scene_gt.json" then some gtContentW else none

/-- A scene directory holding only a cam1-suffixed ground-truth file. -/
def sceneSuffixed : SceneDir :=
  fun n => if n = "scene_gt_cam1.json" then some gtContentW else none

/-- A scene directory holding all three canonical files. -/
def sceneFull : SceneDir :=
  fun n =>
    if n = "scene_camera.json" then some (some Json.null)
    else if n = "scene_gt.json" then some gtContentW
    else if n = "scene_gt_info.json" then some (some Json.null)
    else none

/-- A scene directory whose ground-truth file parses to a non-mapping. -/
def sceneBadTop : SceneDir :=
  fun n => if n = "scene_gt.json" then some (some (Json.arr [])) else none

/-- Witness for C2 at a concrete image entry. -/
theorem c2_witness :
    parsePyInt "0" = some 0 ∧
    processImage 9 ("0", Json.arr [Json.obj [("obj_id", Json.num 3)], Json.str "bad"]) =
      some [TargetRecord.mk 9 0 (Json.num 3) 1] ∧
    sumInst [TargetRecord.mk 9 0 (Json.num 3) 1] =
      (([Json.obj [("obj_id", Json.num 3)], Json.str "bad"].filter isValidAnn)).length :=
  ⟨rfl, rfl,
    c2_inst_count_sums_to_valid 9 0 "0"
      [Json.obj [("obj_id", Json.num 3)], Json.str "bad"]
      [TargetRecord.mk 9 0 (Json.num 3) 1] rfl rfl⟩

/-- Witness for C3 at a concrete ground-truth mapping. -/
theorem c3_witness :
    aggregate 2 [("5", Json.arr [Json.obj [("obj_id", Json.num 8)]])] =
      some [TargetRecord.mk 2 5 (Json.num 8) 1] ∧
    ∀ r ∈ [TargetRecord.mk 2 5 (Json.num 8) 1], 1 ≤ r.inst_count :=
  ⟨rfl,
    c3_inst_count_positive 2 [("5", Json.arr [Json.obj [("obj_id", Json.num 8)]])]
      [TargetRecord.mk 2 5 (Json.num 8) 1] rfl⟩

/-- Witness for C4 at a concrete empty scene. -/
theorem c4_witness :
    ("cam1" : String) ≠ "" ∧
    sceneEmpty ("scene_gt_" ++ "cam1" ++ ".json") = none ∧
    sceneEmpty "scene_gt.json" = none ∧
    ((setup_scene_files_and_targets 0 "cam1" (FState.mk sceneEmpty none)).1 =
        Outcome.missingGT ∧
      (setup_scene_files_and_targets 0 "cam1" (FState.mk sceneEmpty none)).2.output =
        (FState.mk sceneEmpty none).output) :=
  ⟨by decide, rfl, rfl,
    c4_missing_mandatory_source_aborts 0 "cam1" (FState.mk sceneEmpty none)
      (by decide) rfl rfl⟩

/-- Witness for C5 at a concrete scene with only a stale canonical file. -/
theorem c5_witness :
    ("cam1" : String) ≠ "" ∧
    sceneCanonical ("scene_gt_" ++ "cam1" ++ ".json") = none ∧
    sceneCanonical "scene_gt.json" = some gtContentW ∧
    ((setup_scene_files_and_targets 7 "cam1" (FState.mk sceneCanonical none)).1 ≠
        Outcome.missingGT ∧
      (setup_scene_files_and_targets 7 "cam1" (FState.mk sceneCanonical none)).1 ≠
        Outcome.gtUnavailable ∧
      (setup_scene_files_and_targets 7 "cam1" (FState.mk sceneCanonical none)).1 =
        (aggregationStage 7 gtContentW none).1 ∧
      (setup_scene_files_and_targets 7 "cam1" (FState.mk sceneCanonical none)).2.output =
        (aggregationStage 7 gtContentW none).2) :=
  ⟨by decide, rfl, rfl,
    c5_stale_canonical_satisfies_check 7 "cam1" (FState.mk sceneCanonical none)
      gtContentW (by decide) rfl rfl⟩

/-- Witness for C6 at a concrete scene whose ground truth is an array. -/
theorem c6_witness :
    (Json.arr []).isObj = false ∧
    sceneBadTop "scene_gt.json" = some (some (Json.arr [])) ∧
    ((setup_scene_files_and_targets 1 "" (FState.mk sceneBadTop none)).1 =
        Outcome.notDict ∧
      (setup_scene_files_and_targets 1 "" (FState.mk sceneBadTop none)).2.output = none) :=
  ⟨rfl, rfl,
    c6_top_level_not_mapping_aborts 1 (FState.mk sceneBadTop none) (Json.arr []) rfl rfl⟩

/-- Witness for C7 at a concrete non-numeric key. -/
theorem c7_witness :
    parsePyInt "abc" = none ∧
    (processImage 0 ("abc", Json.null) = some [] ∧
      aggregate 0 ([] ++ ("abc", Json.null) :: []) = aggregate 0 ([] ++ [])) :=
  ⟨rfl, c7_bad_key_skipped 0 "abc" Json.null [] [] rfl⟩

/-- Witness for C8 at a concrete scene with all canonical files. -/
theorem c8_witness :
    sceneFull "scene_camera.json" = some (some Json.null) ∧
    sceneFull "scene_gt.json" = some gtContentW ∧
    sceneFull "scene_gt_info.json" = some (some Json.null) ∧
    ((setup_scene_files_and_targets 3 "" (FState.mk sceneFull none)).2.scene = sceneFull ∧
      (setup_scene_files_and_targets 3 "" (FState.mk sceneFull none)).1 ≠
        Outcome.missingGT ∧
      (setup_scene_files_and_targets 3 "" (FState.mk sceneFull none)).1 ≠
        Outcome.gtUnavailable) :=
  ⟨rfl, rfl, rfl,
    c8_no_copy_when_canonical 3 (FState.mk sceneFull none) (some Json.null) gtContentW
      (some Json.null) rfl rfl rfl⟩

/-- Witness for C9 at a concrete suffixed ground-truth source. -/
theorem c9_witness :
    ("cam1" : String) ≠ "" ∧
    sceneSuffixed ("scene_gt_" ++ "cam1" ++ ".json") = some gtContentW ∧
    ((setup_scene_files_and_targets 6 "cam1" (FState.mk sceneSuffixed none)).2.scene
        "scene_gt.json" = some gtContentW ∧
      (setup_scene_files_and_targets 6 "cam1" (FState.mk sceneSuffixed none)).1 =
        (aggregationStage 6 gtContentW none).1 ∧
      (setup_scene_files_and_targets 6 "cam1" (FState.mk sceneSuffixed none)).2.output =
        (aggregationStage 6 gtContentW none).2) :=
  ⟨by decide, rfl,
    c9_resolution_roundtrip 6 "cam1" (FState.mk sceneSuffixed none) gtContentW
      (by decide) rfl⟩

/-- C2 counterexample: the entry with key "0" (which coerces) and list
value holding the single entry with obj_id equal to the list [1] has
one object containing "obj_id", yet the line-105 increment at the
unhashable key raises an uncaught TypeError: processing emits no
records at all, so the per-image inst_count sum (vacuously 0) differs
from the valid-entry count 1. -/
theorem c2_counterexample_unhashable :
    parsePyInt "0" = some 0 ∧
    (([Json.obj [("obj_id", Json.arr [Json.num 1])]].filter isValidAnn)).length = 1 ∧
    processImage 0 ("0", Json.arr [Json.obj [("obj_id", Json.arr [Json.num 1])]]) = none ∧
    aggregate 0 [("0", Json.arr [Json.obj [("obj_id", Json.arr [Json.num 1])]])] = none :=
  ⟨rfl, rfl, rfl, rfl⟩
